import Mathlib

/-!
Shallow embedding of `src/shared/store/client.ts` (prolink-tools).

The file models the store-synchronization client: the lock-gated change
applier `applyConfigLockedChange`, the IPC handlers registered by
`registerRendererIpc` / `registerRendererConfigIpc`, and the websocket
handlers registered by `registerWebsocketListener` /
`registerWebsocketConfigListener`.

Execution model: JavaScript is single threaded and event driven.  A handler
body runs synchronously to completion; a call to `Mutex.runExclusive` from
the `async-mutex` package does NOT run its callback synchronously — the
callback runs in a later microtask (after the current synchronous code has
finished), because acquisition is promise based even when the mutex is free.
`applyConfigLockedChange` does not await the promise returned by
`runExclusive`.  We model this with an explicit list of deferred tasks that
run after the synchronous part of the handler, and a `trace` of observable
events recording the order in which things happened.
-/

namespace ProlinkStore

/-- Operation of a change record.  The concrete `SerializedChange` type lives
in `./ipc` (not part of the sources given); the operations are modelled from
the spec: set / create / delete mutations at a path (§4.4). -/
inductive ChangeOp
  | add
  | update
  | remove
deriving DecidableEq

/-- A serialized change record: a path into the store plus the mutation.  The
`path` is a string — `applyConfigLockedChange` tests it with
`change.path.startsWith('config')`. -/
structure SerializedChange where
  path : String
  op : ChangeOp
  value : Int
deriving DecidableEq

/-- The store, modelled as a flat map from path strings to values.  The
concrete `AppStore` schema is explicitly out of scope in the spec (§1:
"arbitrary application data"); only path-addressed mutation and full
snapshot overwrite matter here. -/
structure AppStore where
  entries : List (String × Int)
deriving DecidableEq

/-- Errors of the change applier, from the spec taxonomy (§7). -/
inductive ApplyError
  | PathNotFound
deriving DecidableEq

/-- JavaScript `String.prototype.startsWith`: the receiver begins with the
characters of the argument.  (Embedded on the character list so that it
evaluates in the kernel.) -/
def strStartsWith (s p : String) : Bool :=
  p.data.isPrefixOf s.data

/-- Modelled from the spec: `applyChange(store, ChangeRecord)` from `./ipc`
(`applyChanges` there), which is not among the given sources.  Per §4.4 it
resolves the path and performs the operation, failing with `PathNotFound`
when the target is missing and the operation is not a create. -/
def applyChanges (store : AppStore) (c : SerializedChange) : Except ApplyError AppStore :=
  match c.op with
  | .add =>
      .ok ⟨(c.path, c.value) :: store.entries.filter (fun e => e.1 ≠ c.path)⟩
  | .update =>
      if store.entries.any (fun e => e.1 = c.path) then
        .ok ⟨store.entries.map (fun e => if e.1 = c.path then (e.1, c.value) else e)⟩
      else
        .error .PathNotFound
  | .remove =>
      if store.entries.any (fun e => e.1 = c.path) then
        .ok ⟨store.entries.filter (fun e => e.1 ≠ c.path)⟩
      else
        .error .PathNotFound

/-- The store that results from one `applyChanges` call: the new store on
success, the unchanged store on failure (the error is surfaced, the store is
left unmodified, §7). -/
def applyResult (store : AppStore) (c : SerializedChange) : AppStore :=
  (applyChanges store c).toOption.getD store

/-- Whether `applyChanges` succeeds. -/
def applyOk (store : AppStore) (c : SerializedChange) : Bool :=
  (applyChanges store c).toOption.isSome

/-- Observable events of one client, in the order they happen. -/
inductive Ev
  | applied (path : String) (lockedDuring : Bool) (ok : Bool)
  | installed
  | ackUpdate
  | ackInit
  | subscribe
  | configUpdate (path : String)
deriving DecidableEq

/-- State of one client: its store replica, whether the config lock is
currently held (`configLock.isLocked()`), and the trace of events so far. -/
structure ClientState where
  store : AppStore
  locked : Bool
  trace : List Ev
deriving DecidableEq

/-- A deferred microtask: the callback handed to `configLock.runExclusive`. -/
inductive Task
  | runExclusiveApply (c : SerializedChange)
deriving DecidableEq

/-- One invocation of `applyChanges(store, change)` on a client: updates the
store (unchanged on failure) and records an `applied` event noting the lock
state observed while the apply ran and whether it succeeded. -/
def applyChangesStep (s : ClientState) (c : SerializedChange) : ClientState :=
  { s with
    store := applyResult s.store c
    trace := s.trace ++ [Ev.applied c.path s.locked (applyOk s.store c)] }

/-- Run one deferred task.  `Task.runExclusiveApply c` is the body of
`configLock.runExclusive(() => applyChanges(store, change))` from
`async-mutex`: acquire the lock (the caller is suspended until it is free —
in the runs considered here it is free when the task executes), run the
callback while the lock is held (`applyChangesStep` covers both the normal
and the failing outcome of `applyChanges`), and release the lock on every
exit path afterwards — the library wraps the callback in try/finally. -/
def runTask (s : ClientState) : Task → ClientState
  | .runExclusiveApply c =>
      let acquired : ClientState := { s with locked := true }
      let ran := applyChangesStep acquired c
      { ran with locked := false }

/-- Run a queue of deferred tasks in order. -/
def runAll (s : ClientState) (ts : List Task) : ClientState :=
  ts.foldl runTask s

/-- Embedding of `applyConfigLockedChange(store, change, configLock?)`
(client.ts lines 11–21): if a lock was provided and
`change.path.startsWith('config')`, the apply is wrapped in
`configLock.runExclusive` — which only schedules it; the promise is not
awaited, so the callback becomes a deferred task.  Otherwise
`applyChanges(store, change)` runs synchronously, without touching the
lock.  Returns the synchronous part of the new state and the deferred
tasks. -/
def applyConfigLockedChange (s : ClientState) (c : SerializedChange)
    (lockProvided : Bool) : ClientState × List Task :=
  if lockProvided && strStartsWith c.path "config" then
    (s, [Task.runExclusiveApply c])
  else
    (applyChangesStep s c, [])

/-- `applyConfigLockedChange` followed by draining the microtask queue: the
state once both the synchronous part and any deferred lock-gated apply have
finished. -/
def applyConfigLockedChangeRun (s : ClientState) (c : SerializedChange)
    (lockProvided : Bool) : ClientState :=
  let (s1, ts) := applyConfigLockedChange s c lockProvided
  runAll s1 ts

/-- The `'store-update'` IPC handler registered by `registerRendererIpc`
(client.ts lines 31–34): synchronously call
`applyConfigLockedChange(store, change, configLock)` (the lock is always
provided on this path), then `ipcRenderer.send('store-update-done')`; the
deferred microtasks run afterwards. -/
def ipcStoreUpdate (s : ClientState) (c : SerializedChange) : ClientState :=
  let p := applyConfigLockedChange s c true
  let s2 := { p.1 with trace := p.1.trace ++ [Ev.ackUpdate] }
  runAll s2 p.2

/-- Modelled from the spec: mobx `set(store, data)` installing a decoded
snapshot is a full overwrite of the replica, not a merge (§4.5 step 3) —
every field of the fixed `AppStore` schema is assigned from the snapshot. -/
def mobxSet (_current incoming : AppStore) : AppStore :=
  incoming

/-- Wire form of a snapshot (the serializr encoding of `AppStore`). -/
structure Wire where
  fields : List (String × Int)
deriving DecidableEq

/-- Modelled from the spec: `snapshot(Store) -> Wire` (§4.2); encode/decode
mechanics are out of scope beyond round-tripping the tree. -/
def serializeAppStore (s : AppStore) : Wire :=
  ⟨s.entries⟩

/-- Modelled from the spec: `restore(Wire) -> Store-shaped data`, the
`deserialize(AppStore, data)` call (§4.2). -/
def deserializeAppStore (w : Wire) : AppStore :=
  ⟨w.fields⟩

/-- The `'store-init'` IPC handler registered by `registerRendererIpc`
(client.ts lines 36–42): `set(store, deserialize(AppStore, data))` and then
`event.sender.send('store-init-done')`.  The lock is neither consulted nor
acquired. -/
def ipcStoreInit (s : ClientState) (w : Wire) : ClientState :=
  let s1 := { s with
    store := mobxSet s.store (deserializeAppStore w)
    trace := s.trace ++ [Ev.installed] }
  { s1 with trace := s1.trace ++ [Ev.ackInit] }

/-- The registration step of `registerRendererIpc` (client.ts line 45):
after installing the two handlers it sends `'store-subscribe'` to kick off
hydration. -/
def registerRendererIpc (s : ClientState) : ClientState :=
  { s with trace := s.trace ++ [Ev.subscribe] }

/-- The observer handler installed by `registerRendererConfigIpc`
(client.ts lines 52–57), invoked once per observed mutation of
`store.config`: `!configLock.isLocked() && ipcRenderer.send('config-update',
change)` — it emits only when the lock is not held at the moment of
invocation. -/
def rendererConfigHandler (s : ClientState) (c : SerializedChange) : ClientState :=
  if !s.locked then
    { s with trace := s.trace ++ [Ev.configUpdate c.path] }
  else
    s

/-- The `'store-update'` websocket handler registered by
`registerWebsocketListener` (client.ts lines 73–76):
`applyConfigLockedChange(store, change, configLock)` (the lock is optional
on this path) and then `done?.()` — the acknowledgment callback is invoked
only when one was supplied. -/
def wsStoreUpdate (s : ClientState) (c : SerializedChange)
    (lockProvided : Bool) (hasDone : Bool) : ClientState :=
  let p := applyConfigLockedChange s c lockProvided
  let s2 := if hasDone then { p.1 with trace := p.1.trace ++ [Ev.ackUpdate] } else p.1
  runAll s2 p.2

/-- The `'store-init'` websocket handler registered by
`registerWebsocketListener` (client.ts lines 77–83):
`set(store, deserialize(AppStore, data))` and then `done?.()`. -/
def wsStoreInit (s : ClientState) (w : Wire) (hasDone : Bool) : ClientState :=
  let s1 := { s with
    store := mobxSet s.store (deserializeAppStore w)
    trace := s.trace ++ [Ev.installed] }
  if hasDone then { s1 with trace := s1.trace ++ [Ev.ackInit] } else s1

/-- The observer handler installed by `registerWebsocketConfigListener`
(client.ts lines 93–101): `!configLock.isLocked() && ws.emit('config-update',
change)`. -/
def wsConfigHandler (s : ClientState) (c : SerializedChange) : ClientState :=
  if !s.locked then
    { s with trace := s.trace ++ [Ev.configUpdate c.path] }
  else
    s

/-- Membership in the config subtree proper, by path segments (spec wording
"the record's path falls under the config subtree"): the path IS the config
key, or lies strictly below it. -/
def inConfigSubtree (path : String) : Bool :=
  path = "config" || strStartsWith path "config."

/-- Whether an event is an `applied` event. -/
def isApplied : Ev → Bool
  | .applied _ _ _ => true
  | _ => false

/-- Whether an event is the update acknowledgment. -/
def isAckUpdate : Ev → Bool
  | .ackUpdate => true
  | _ => false

/-- An empty, unlocked client with an empty trace; used for concrete runs. -/
def emptyClient : ClientState :=
  ⟨⟨[]⟩, false, []⟩

/-- Closed form of one `runExclusive` task: the store ends up as
`applyResult`, the lock is free again afterwards, and the `applied` event
records that the lock was held while the callback ran. -/
theorem runTask_closed_form (s : ClientState) (c : SerializedChange) :
    runTask s (Task.runExclusiveApply c)
      = ⟨applyResult s.store c, false,
         s.trace ++ [Ev.applied c.path true (applyOk s.store c)]⟩ :=
  rfl

/-- Running an empty task queue changes nothing. -/
theorem runAll_nil (s : ClientState) : runAll s [] = s :=
  rfl

/-- Running a one-task queue is running that task. -/
theorem runAll_singleton (s : ClientState) (t : Task) :
    runAll s [t] = runTask s t :=
  rfl

/-- C1: while the config lock is held (`isLocked() == true`) the outgoing
handlers installed by `registerRendererConfigIpc` and
`registerWebsocketConfigListener` emit no `config-update` for an observed
config change (the client state, trace included, is untouched even though
the underlying store mutation already happened before the observer fired);
the `config-update` emission happens if and only if `isLocked()` is false at
the moment the observer invokes the handler. -/
theorem C1_config_emission_gated_by_lock (s : ClientState) (c : SerializedChange) :
    (s.locked = true → rendererConfigHandler s c = s ∧ wsConfigHandler s c = s)
    ∧ ((rendererConfigHandler s c).trace = s.trace ++ [Ev.configUpdate c.path]
        ↔ s.locked = false)
    ∧ ((wsConfigHandler s c).trace = s.trace ++ [Ev.configUpdate c.path]
        ↔ s.locked = false) := by
  unfold rendererConfigHandler wsConfigHandler
  cases hl : s.locked <;> simp [hl]

/-- C1 witness: at a held lock the renderer handler leaves the state alone,
and at a free lock it emits the `config-update`. -/
theorem C1_witness :
    rendererConfigHandler ⟨⟨[]⟩, true, []⟩ ⟨"config.volume", ChangeOp.update, 8⟩
        = (⟨⟨[]⟩, true, []⟩ : ClientState)
    ∧ (rendererConfigHandler emptyClient ⟨"config.volume", ChangeOp.update, 8⟩).trace
        = [Ev.configUpdate "config.volume"] :=
  ⟨((C1_config_emission_gated_by_lock ⟨⟨[]⟩, true, []⟩
      ⟨"config.volume", ChangeOp.update, 8⟩).1 rfl).1,
   (C1_config_emission_gated_by_lock emptyClient
      ⟨"config.volume", ChangeOp.update, 8⟩).2.1.mpr rfl⟩

/-- C2 counterexample: the path `configuration` does not fall under the
config subtree, yet with a lock provided `applyConfigLockedChange` does not
apply it directly — it schedules the apply under `lock.runExclusive`, and
the apply runs with the lock held. -/
theorem C2_counterexample :
    inConfigSubtree "configuration" = false
    ∧ (applyConfigLockedChange emptyClient ⟨"configuration", ChangeOp.add, 1⟩ true).1
        = emptyClient
    ∧ (applyConfigLockedChange emptyClient ⟨"configuration", ChangeOp.add, 1⟩ true).2
        = [Task.runExclusiveApply ⟨"configuration", ChangeOp.add, 1⟩]
    ∧ (applyConfigLockedChangeRun emptyClient ⟨"configuration", ChangeOp.add, 1⟩ true).trace
        = [Ev.applied "configuration" true true] := by
  decide

/-- C2 amended: for every store, change and optional lock, if a lock is
provided and the change path starts with the string `config` then
`applyConfigLockedChange` schedules the apply wrapped in
`lock.runExclusive`; in every other case it applies the change directly
without touching the lock; and once any deferred task has run, the
resulting store is `applyChanges(store, change)`s result in both
branches. -/
theorem C2_amended_branching (s : ClientState) (c : SerializedChange)
    (lockProvided : Bool) (hfree : s.locked = false) :
    (applyConfigLockedChangeRun s c lockProvided).store = applyResult s.store c
    ∧ ((lockProvided && strStartsWith c.path "config") = true →
        applyConfigLockedChange s c lockProvided = (s, [Task.runExclusiveApply c])
        ∧ (applyConfigLockedChangeRun s c lockProvided).trace
            = s.trace ++ [Ev.applied c.path true (applyOk s.store c)])
    ∧ ((lockProvided && strStartsWith c.path "config") = false →
        applyConfigLockedChange s c lockProvided = (applyChangesStep s c, [])
        ∧ (applyConfigLockedChangeRun s c lockProvided).locked = s.locked
        ∧ (applyConfigLockedChangeRun s c lockProvided).trace
            = s.trace ++ [Ev.applied c.path s.locked (applyOk s.store c)]) := by
  cases hb : lockProvided && strStartsWith c.path "config" <;>
    simp [applyConfigLockedChangeRun, applyConfigLockedChange, hb, runAll_nil,
      runAll_singleton, runTask_closed_form, applyChangesStep, hfree]

/-- C2 amended, witness at a non-config path with the lock provided. -/
theorem C2_amended_witness :
    emptyClient.locked = false
    ∧ (applyConfigLockedChangeRun emptyClient ⟨"playlist", ChangeOp.add, 1⟩ true).store
        = applyResult emptyClient.store ⟨"playlist", ChangeOp.add, 1⟩ :=
  ⟨rfl, (C2_amended_branching emptyClient ⟨"playlist", ChangeOp.add, 1⟩ true rfl).1⟩

/-- C3 counterexample: for a `store-update` carrying a config-path change,
the IPC handler sends `store-update-done` synchronously while the lock-gated
apply only runs in a later microtask, so the acknowledgment strictly
precedes the completion of the apply. -/
theorem C3_counterexample :
    (ipcStoreUpdate emptyClient ⟨"config.volume", ChangeOp.add, 8⟩).trace
        = [Ev.ackUpdate, Ev.applied "config.volume" true true]
    ∧ List.findIdx isAckUpdate
          (ipcStoreUpdate emptyClient ⟨"config.volume", ChangeOp.add, 8⟩).trace
        < List.findIdx isApplied
          (ipcStoreUpdate emptyClient ⟨"config.volume", ChangeOp.add, 8⟩).trace := by
  decide

/-- C3 amended: for a change that is not routed through the config lock
(path not starting with `config`, or no lock provided) the apply completes
before the acknowledgment is sent; for a lock-routed config change the
acknowledgment is sent synchronously and the apply completes only
afterwards, in a later microtask. -/
theorem C3_amended_ack_ordering (s : ClientState) (c : SerializedChange)
    (lockProvided hasDone : Bool) (hfree : s.locked = false) :
    (strStartsWith c.path "config" = false →
        (ipcStoreUpdate s c).trace
          = s.trace ++ [Ev.applied c.path false (applyOk s.store c), Ev.ackUpdate])
    ∧ (strStartsWith c.path "config" = true →
        (ipcStoreUpdate s c).trace
          = s.trace ++ [Ev.ackUpdate, Ev.applied c.path true (applyOk s.store c)])
    ∧ ((lockProvided && strStartsWith c.path "config") = false →
        (wsStoreUpdate s c lockProvided hasDone).trace
          = s.trace ++ [Ev.applied c.path false (applyOk s.store c)]
              ++ (if hasDone then [Ev.ackUpdate] else []))
    ∧ ((lockProvided && strStartsWith c.path "config") = true →
        (wsStoreUpdate s c lockProvided hasDone).trace
          = s.trace ++ (if hasDone then [Ev.ackUpdate] else [])
              ++ [Ev.applied c.path true (applyOk s.store c)]) := by
  refine ⟨fun h => ?_, fun h => ?_, fun h => ?_, fun h => ?_⟩ <;>
    cases hd : hasDone <;>
      simp [ipcStoreUpdate, wsStoreUpdate, applyConfigLockedChange, h, hfree,
        runAll_nil, runAll_singleton, runTask_closed_form, applyChangesStep,
        Bool.and_eq_true] at *

/-- C3 amended, witness: a non-config change acked after the apply, through
the IPC handler. -/
theorem C3_amended_witness :
    strStartsWith "playlist" "config" = false
    ∧ (ipcStoreUpdate emptyClient ⟨"playlist", ChangeOp.add, 1⟩).trace
        = [Ev.applied "playlist" false true, Ev.ackUpdate] :=
  ⟨by decide,
   (C3_amended_ack_ordering emptyClient ⟨"playlist", ChangeOp.add, 1⟩ true true rfl).1
     (by decide)⟩

/-- C4: a config-path change applied through the lock holds the lock for the
duration of the apply (the `applied` event records `isLocked() == true`
while `applyChanges` ran) and the lock is free again once the deferred task
has finished, on every exit path: also when `applyChanges` fails, in which
case the store is left unmodified but the lock is still released. -/
theorem C4_lock_released_on_all_paths (s : ClientState) (c : SerializedChange)
    (hfree : s.locked = false) (hcfg : strStartsWith c.path "config" = true) :
    (applyConfigLockedChangeRun s c true).locked = false
    ∧ (applyConfigLockedChangeRun s c true).trace
        = s.trace ++ [Ev.applied c.path true (applyOk s.store c)]
    ∧ (applyOk s.store c = false →
        (applyConfigLockedChangeRun s c true).store = s.store) := by
  refine ⟨?_, ?_, fun hfail => ?_⟩
  · simp [applyConfigLockedChangeRun, applyConfigLockedChange, hcfg,
      runAll_singleton, runTask_closed_form]
  · simp [applyConfigLockedChangeRun, applyConfigLockedChange, hcfg,
      runAll_singleton, runTask_closed_form]
  · simp only [applyConfigLockedChangeRun, applyConfigLockedChange, hcfg,
      runAll_singleton, runTask_closed_form, applyResult, applyOk,
      Bool.and_self, if_true]
    simp only [applyOk] at hfail
    cases hac : applyChanges s.store c with
    | error e => simp [Except.toOption]
    | ok st => rw [hac] at hfail; simp [Except.toOption] at hfail

/-- C4 witness: an update to a missing path under `config` fails with
`PathNotFound`; the lock was held during the apply and is released
afterwards all the same. -/
theorem C4_witness :
    emptyClient.locked = false
    ∧ strStartsWith "config.volume" "config" = true
    ∧ applyOk emptyClient.store ⟨"config.volume", ChangeOp.update, 8⟩ = false
    ∧ ((applyConfigLockedChangeRun emptyClient ⟨"config.volume", ChangeOp.update, 8⟩ true).locked
          = false
        ∧ (applyConfigLockedChangeRun emptyClient ⟨"config.volume", ChangeOp.update, 8⟩ true).trace
          = [] ++ [Ev.applied "config.volume" true
              (applyOk emptyClient.store ⟨"config.volume", ChangeOp.update, 8⟩)]
        ∧ (applyOk emptyClient.store ⟨"config.volume", ChangeOp.update, 8⟩ = false →
            (applyConfigLockedChangeRun emptyClient ⟨"config.volume", ChangeOp.update, 8⟩ true).store
              = emptyClient.store)) :=
  ⟨rfl, by decide, by decide,
   C4_lock_released_on_all_paths emptyClient ⟨"config.volume", ChangeOp.update, 8⟩
     rfl (by decide)⟩

/-- C5: `registerRendererIpc` sends `store-subscribe` on registration; the
`store-init` handler installs the decoded snapshot as a full overwrite — the
resulting replica is exactly the decoded snapshot, independent of the
replica's prior contents — and the `store-init-done` acknowledgment is
recorded only after the installation. -/
theorem C5_hydration_handshake (s s2 : ClientState) (w : Wire) :
    (registerRendererIpc s).trace = s.trace ++ [Ev.subscribe]
    ∧ (ipcStoreInit s w).store = deserializeAppStore w
    ∧ (ipcStoreInit s w).store = (ipcStoreInit s2 w).store
    ∧ (ipcStoreInit s w).trace = s.trace ++ [Ev.installed, Ev.ackInit] := by
  refine ⟨rfl, rfl, rfl, ?_⟩
  simp [ipcStoreInit]

/-- C6: the IPC and websocket channel adapters are behaviorally equivalent
on the shared vocabulary: given the same client state, the same change (with
a lock provided in both) and the same snapshot (with an acknowledgment
callback supplied), `store-update` and `store-init` produce identical
states — in particular identical stores — through either transport. -/
theorem C6_transport_equivalence (s : ClientState) (c : SerializedChange) (w : Wire) :
    wsStoreUpdate s c true true = ipcStoreUpdate s c
    ∧ wsStoreInit s w true = ipcStoreInit s w
    ∧ (wsStoreUpdate s c true true).store = (ipcStoreUpdate s c).store
    ∧ (wsStoreInit s w true).store = (ipcStoreInit s w).store :=
  ⟨rfl, rfl, rfl, rfl⟩

/-- C7: taking a snapshot of a host store and restoring it on a peripheral
(deserializing the `store-init` payload and installing it) yields a replica
structurally equal to the source store, through either handler. -/
theorem C7_snapshot_roundtrip (host : AppStore) (p p2 : ClientState) (hasDone : Bool) :
    deserializeAppStore (serializeAppStore host) = host
    ∧ (ipcStoreInit p (serializeAppStore host)).store = host
    ∧ (wsStoreInit p2 (serializeAppStore host) hasDone).store = host := by
  refine ⟨rfl, rfl, ?_⟩
  cases hasDone <;> rfl

/-- C8: with a lock provided, a change is routed through the lock exactly
when its path string starts with the characters `config`; in particular the
top-level key `configuration`, which is not inside the config subtree by
path segments, is still lock-routed — membership is a string test, not a
segment test. -/
theorem C8_config_test_is_string_start (s : ClientState) (c : SerializedChange) :
    ((applyConfigLockedChange s c true).2 ≠ [] ↔ strStartsWith c.path "config" = true)
    ∧ strStartsWith "configuration" "config" = true
    ∧ inConfigSubtree "configuration" = false
    ∧ (applyConfigLockedChange s ⟨"configuration", ChangeOp.add, 1⟩ true).2
        = [Task.runExclusiveApply ⟨"configuration", ChangeOp.add, 1⟩] := by
  refine ⟨?_, by decide, by decide, ?_⟩
  · cases hb : strStartsWith c.path "config" <;>
      simp [applyConfigLockedChange, hb]
  · simp [applyConfigLockedChange, strStartsWith]

/-- C8 witness: a genuine config-subtree path is routed through the lock. -/
theorem C8_witness :
    strStartsWith "config.volume" "config" = true
    ∧ (applyConfigLockedChange emptyClient ⟨"config.volume", ChangeOp.add, 8⟩ true).2 ≠ [] :=
  ⟨by decide,
   (C8_config_test_is_string_start emptyClient
      ⟨"config.volume", ChangeOp.add, 8⟩).1.mpr (by decide)⟩

/-- C9: snapshot installation is not guarded by the config lock: both
`store-init` handlers leave the lock state unchanged, the installation adds
no `applied` event (the change applier and thus the lock-gated path is never
involved), and because the lock state is untouched, an observer firing for a
config mutation right after hydration of an unlocked client is not
suppressed — the `config-update` is emitted. -/
theorem C9_init_not_lock_guarded (s : ClientState) (w : Wire)
    (c : SerializedChange) (hasDone : Bool) :
    (ipcStoreInit s w).locked = s.locked
    ∧ (wsStoreInit s w hasDone).locked = s.locked
    ∧ List.filter isApplied ((ipcStoreInit s w).trace) = List.filter isApplied s.trace
    ∧ List.filter isApplied ((wsStoreInit s w hasDone).trace)
        = List.filter isApplied s.trace
    ∧ (s.locked = false →
        (rendererConfigHandler (ipcStoreInit s w) c).trace
          = (ipcStoreInit s w).trace ++ [Ev.configUpdate c.path]) := by
  refine ⟨rfl, ?_, ?_, ?_, fun hl => ?_⟩
  · cases hasDone <;> rfl
  · simp [ipcStoreInit, isApplied]
  · cases hasDone <;> simp [wsStoreInit, isApplied]
  · simp [rendererConfigHandler, ipcStoreInit, hl]

/-- C9 witness: hydrating an unlocked empty client leaves the lock free and
a subsequent observed config change is emitted. -/
theorem C9_witness :
    emptyClient.locked = false
    ∧ (rendererConfigHandler (ipcStoreInit emptyClient ⟨[("config.volume", 5)]⟩)
          ⟨"config.volume", ChangeOp.update, 8⟩).trace
        = (ipcStoreInit emptyClient ⟨[("config.volume", 5)]⟩).trace
            ++ [Ev.configUpdate "config.volume"] :=
  ⟨rfl,
   (C9_init_not_lock_guarded emptyClient ⟨[("config.volume", 5)]⟩
      ⟨"config.volume", ChangeOp.update, 8⟩ true).2.2.2.2 rfl⟩

/-- C10: the websocket handlers tolerate a missing acknowledgment callback:
without a `done` callback the change (or snapshot) is still applied and the
handler produces exactly the apply (or install) event and no acknowledgment
event; the resulting store is the same as with a callback supplied. -/
theorem C10_optional_done_callback (s : ClientState) (c : SerializedChange)
    (w : Wire) (lockProvided : Bool) (hfree : s.locked = false) :
    (wsStoreUpdate s c lockProvided false).store = applyResult s.store c
    ∧ (wsStoreUpdate s c lockProvided false).store
        = (wsStoreUpdate s c lockProvided true).store
    ∧ (wsStoreUpdate s c lockProvided false).trace
        = s.trace ++ [Ev.applied c.path (lockProvided && strStartsWith c.path "config")
            (applyOk s.store c)]
    ∧ (wsStoreInit s w false).store = deserializeAppStore w
    ∧ (wsStoreInit s w false).trace = s.trace ++ [Ev.installed] := by
  refine ⟨?_, ?_, ?_, rfl, ?_⟩ <;>
    cases hb : lockProvided && strStartsWith c.path "config" <;>
      simp [wsStoreUpdate, wsStoreInit, applyConfigLockedChange, hb, hfree,
        runAll_nil, runAll_singleton, runTask_closed_form, applyChangesStep]

/-- C10 witness: a lock-routed config change delivered without a callback is
still applied, with no acknowledgment event. -/
theorem C10_witness :
    emptyClient.locked = false
    ∧ (wsStoreUpdate emptyClient ⟨"config.volume", ChangeOp.add, 8⟩ true false).store
        = applyResult emptyClient.store ⟨"config.volume", ChangeOp.add, 8⟩
    ∧ (wsStoreUpdate emptyClient ⟨"config.volume", ChangeOp.add, 8⟩ true false).trace
        = [] ++ [Ev.applied "config.volume"
            (true && strStartsWith "config.volume" "config")
            (applyOk emptyClient.store ⟨"config.volume", ChangeOp.add, 8⟩)] :=
  ⟨rfl,
   (C10_optional_done_callback emptyClient ⟨"config.volume", ChangeOp.add, 8⟩
      ⟨[]⟩ true rfl).1,
   (C10_optional_done_callback emptyClient ⟨"config.volume", ChangeOp.add, 8⟩
      ⟨[]⟩ true rfl).2.2.1⟩

end ProlinkStore
